import Mathlib

/-!
Shallow embedding of the Piazza post lifecycle and engagement code.

The repository carries several coexisting implementations of the same
endpoints; each is embedded separately and named after its file:

* src/models/Post.js            — the mongoose schema: the pre-save status
  flip, the isExpired virtual, getTotalActivity and updateExpiredPosts.
* src/src/routes/posts.js       — the route variant mounted by server.js
  (prefix ssr below): like, dislike and comment check only that the post
  exists; browse, most-active and expired-history filter on the cached
  status field.
* src/unnamed/part_002          — a second route variant (prefix rt2):
  like checks existence, expiry and self-interaction in that order; the
  dislike route omits the self-interaction check; create derives the
  expiry timestamp from an optional minute duration.
* src/unnamed/part_001          — the controller variant (prefix ctrl):
  posts carry numeric like and dislike counters next to the likedBy and
  dislikedBy identity arrays; a repeated reaction is rejected rather than
  toggled; queries first flip stale statuses with updateExpiredPosts.

Timestamps are integers (milliseconds since the epoch, as in JS).
User identifiers are naturals.
-/

namespace Piazza

/-- Lifecycle status values of the status field of the post schema. -/
inductive Status where
  | Live
  | Expired
deriving DecidableEq

/-- A comment subdocument (comment schema in src/models/Post.js). -/
structure Comment where
  user : Nat
  username : String
  text : String
  createdAt : Int
deriving DecidableEq

/-- Post record as the route variants use it: the likes and dislikes
fields hold arrays of user identifiers (src/src/routes/posts.js and
src/unnamed/part_002 filter, test and push on them). -/
structure RPost where
  title : String
  content : String
  topic : String
  author : Nat
  authorUsername : String
  expirationTime : Int
  status : Status
  likes : List Nat
  dislikes : List Nat
  comments : List Comment
  createdAt : Int
deriving DecidableEq

/-- Post record as the controller variant and the schema use it: numeric
likes and dislikes counters (schema default 0) next to the likedBy and
dislikedBy identity arrays (src/unnamed/part_001). -/
structure CPost where
  title : String
  content : String
  topic : String
  author : Nat
  authorUsername : String
  expirationTime : Int
  status : Status
  likes : Int
  dislikes : Int
  likedBy : List Nat
  dislikedBy : List Nat
  comments : List Comment
  createdAt : Int
deriving DecidableEq

/-- Typed results the handlers surface (HTTP error payloads in the code). -/
inductive PostError where
  | notFound
  | postExpired
  | selfForbidden
  | alreadyLiked
  | alreadyDisliked
  | validationError
  | invalidTopic
  | noPosts
deriving DecidableEq

/-- The closed topic taxonomy, identical in every variant. -/
def TOPICS : List String := ["Politics", "Health", "Sport", "Tech"]

/-- validateTopic from src/unnamed/part_001. -/
def validateTopic (topic : String) : Bool := TOPICS.contains topic

/-- The trim sanitizer the express-validator chains apply before the
notEmpty and isLength checks: drops whitespace from both ends. (A
computable stand-in for String.trim, acting on the character list.) -/
def jsTrim (s : String) : String :=
  String.mk (((s.data.dropWhile Char.isWhitespace).reverse.dropWhile Char.isWhitespace).reverse)

/-- The pre-save hook of src/models/Post.js lines 89-94: flips status to
Expired when the current time is strictly past expirationTime. Runs on
every save, including the save that persists a reaction or a comment. -/
def preSaveR (now : Int) (p : RPost) : RPost :=
  if now > p.expirationTime then { p with status := Status.Expired } else p

/-- The same pre-save hook acting on the controller-variant record. -/
def preSaveC (now : Int) (p : CPost) : CPost :=
  if now > p.expirationTime then { p with status := Status.Expired } else p

/-- The isExpired virtual of src/models/Post.js lines 97-99: strictly
greater comparison of the current time against expirationTime. -/
def isExpiredVirtual (expirationTime now : Int) : Bool :=
  now > expirationTime

/-- Modelled from the words of the specification, for comparison with the
code: isExpired(post, now) := now >= post.expiresAt. -/
def isExpiredSpec (expiresAt now : Int) : Bool :=
  now ≥ expiresAt

/-! ### src/src/routes/posts.js (ssr), the variant mounted by server.js -/

/-- Like route of src/src/routes/posts.js lines 91-123: after the
existence check it unconditionally removes the caller from dislikes and
toggles the caller in likes. There is no expiry check and no
self-interaction check. -/
def ssrLike (post : Option RPost) (uid : Nat) (now : Int) : Except PostError RPost :=
  match post with
  | none => Except.error PostError.notFound
  | some p =>
    let p1 := { p with dislikes := p.dislikes.filter (fun i => i != uid) }
    let p2 :=
      if p1.likes.contains uid then
        { p1 with likes := p1.likes.filter (fun i => i != uid) }
      else
        { p1 with likes := p1.likes ++ [uid] }
    Except.ok (preSaveR now p2)

/-- Dislike route of src/src/routes/posts.js lines 125-157, symmetric to
the like route and equally missing the expiry and self checks. -/
def ssrDislike (post : Option RPost) (uid : Nat) (now : Int) : Except PostError RPost :=
  match post with
  | none => Except.error PostError.notFound
  | some p =>
    let p1 := { p with likes := p.likes.filter (fun i => i != uid) }
    let p2 :=
      if p1.dislikes.contains uid then
        { p1 with dislikes := p1.dislikes.filter (fun i => i != uid) }
      else
        { p1 with dislikes := p1.dislikes ++ [uid] }
    Except.ok (preSaveR now p2)

/-- Comment route of src/src/routes/posts.js lines 159-193: validator
first (trimmed text non-empty and at most 500 characters), then the
existence check, then the append. No expiry check. -/
def ssrComment (post : Option RPost) (uid : Nat) (uname text : String) (now : Int) :
    Except PostError RPost :=
  if jsTrim text = "" ∨ (jsTrim text).length > 500 then Except.error PostError.validationError
  else
    match post with
    | none => Except.error PostError.notFound
    | some p =>
      Except.ok (preSaveR now
        { p with comments := p.comments ++
            [{ user := uid, username := uname, text := jsTrim text, createdAt := now }] })

/-! ### src/unnamed/part_002 (rt2), the second route variant -/

/-- Like route of src/unnamed/part_002 lines 97-131: existence, expiry
(cached Expired status or current time strictly past expirationTime) and
self-interaction checks in that order, then removal from dislikes and a
toggle in likes. -/
def rt2Like (post : Option RPost) (uid : Nat) (now : Int) : Except PostError RPost :=
  match post with
  | none => Except.error PostError.notFound
  | some p =>
    if p.status = Status.Expired ∨ now > p.expirationTime then
      Except.error PostError.postExpired
    else if p.author = uid then
      Except.error PostError.selfForbidden
    else
      let p1 := { p with dislikes := p.dislikes.filter (fun i => i != uid) }
      let p2 :=
        if p1.likes.contains uid then
          { p1 with likes := p1.likes.filter (fun i => i != uid) }
        else
          { p1 with likes := p1.likes ++ [uid] }
      Except.ok (preSaveR now p2)

/-- Dislike route of src/unnamed/part_002 lines 134-162: existence and
expiry checks only — unlike the like route it has no self-interaction
check — then removal from likes and a toggle in dislikes. -/
def rt2Dislike (post : Option RPost) (uid : Nat) (now : Int) : Except PostError RPost :=
  match post with
  | none => Except.error PostError.notFound
  | some p =>
    if p.status = Status.Expired ∨ now > p.expirationTime then
      Except.error PostError.postExpired
    else
      let p1 := { p with likes := p.likes.filter (fun i => i != uid) }
      let p2 :=
        if p1.dislikes.contains uid then
          { p1 with dislikes := p1.dislikes.filter (fun i => i != uid) }
        else
          { p1 with dislikes := p1.dislikes ++ [uid] }
      Except.ok (preSaveR now p2)

/-- Comment route of src/unnamed/part_002 lines 165-197: text validation
first, then existence, then the expiry check, then the append. -/
def rt2Comment (post : Option RPost) (uid : Nat) (uname text : String) (now : Int) :
    Except PostError RPost :=
  if jsTrim text = "" ∨ (jsTrim text).length > 500 then Except.error PostError.validationError
  else
    match post with
    | none => Except.error PostError.notFound
    | some p =>
      if p.status = Status.Expired ∨ now > p.expirationTime then
        Except.error PostError.postExpired
      else
        Except.ok (preSaveR now
          { p with comments := p.comments ++
              [{ user := uid, username := uname, text := jsTrim text, createdAt := now }] })

/-- Default expiry of src/unnamed/part_002: 5 minutes. -/
def DEFAULT_EXPIRY : Int := 5

/-- Create route of src/unnamed/part_002 lines 12-42: validates title,
content and topic, then sets the expiry to now plus the requested number
of minutes, where a missing or zero duration (JS falsiness of
expirationMins) falls back to the 5-minute default and any other value,
negative included, is used as supplied. The save then runs the pre-save
hook of the schema. -/
def rt2Create (title content topic : String) (author : Nat) (authorUsername : String)
    (expirationMins : Option Int) (now : Int) : Except PostError RPost :=
  if jsTrim title = "" ∨ (jsTrim title).length > 200 ∨
     jsTrim content = "" ∨ (jsTrim content).length > 2000 ∨
     ¬ TOPICS.contains topic then
    Except.error PostError.validationError
  else
    let mins : Int :=
      match expirationMins with
      | none => DEFAULT_EXPIRY
      | some m => if m = 0 then DEFAULT_EXPIRY else m
    Except.ok (preSaveR now
      { title := jsTrim title, content := jsTrim content, topic := topic,
        author := author, authorUsername := authorUsername,
        expirationTime := now + mins * 60000, status := Status.Live,
        likes := [], dislikes := [], comments := [], createdAt := now })

/-- The lazy status flip applied to one stored document by the
updateExpiredPosts static of src/models/Post.js lines 107-113 (and by the
inline updateMany of src/unnamed/part_002 lines 244-247): documents whose
expirationTime is strictly before now and whose status is Live are set to
Expired. -/
def lazyFlipR (now : Int) (p : RPost) : RPost :=
  if p.expirationTime < now ∧ p.status = Status.Live then
    { p with status := Status.Expired }
  else p

/-- updateExpiredPosts over a store of route-variant records. -/
def updateExpiredR (now : Int) (store : List RPost) : List RPost :=
  store.map (lazyFlipR now)

/-- The same lazy flip on controller-variant records. -/
def lazyFlipC (now : Int) (p : CPost) : CPost :=
  if p.expirationTime < now ∧ p.status = Status.Live then
    { p with status := Status.Expired }
  else p

/-- updateExpiredPosts over a store of controller-variant records. -/
def updateExpiredC (now : Int) (store : List CPost) : List CPost :=
  store.map (lazyFlipC now)

/-! ### src/unnamed/part_001 (ctrl), the controller variant -/

/-- checkPostExpiration of src/unnamed/part_001 lines 11-18: if the
current time is strictly past expirationTime and the cached status is
Live, it flips the status, saves, and reports expired; otherwise it
reports whether the cached status is already Expired. Returns the flag
together with the (possibly flipped) record. -/
def checkPostExpiration (p : CPost) (now : Int) : Bool × CPost :=
  if now > p.expirationTime ∧ p.status = Status.Live then
    (true, { p with status := Status.Expired })
  else
    (decide (p.status = Status.Expired), p)

/-- likePost of src/unnamed/part_001 lines 163-210: existence, expiry and
ownership checks in order; a user already in likedBy is rejected rather
than toggled; a user in dislikedBy has the dislike withdrawn first, the
numeric dislikes counter decremented with a floor of zero; then the like
is recorded in likedBy and the likes counter incremented. -/
def ctrlLike (post : Option CPost) (uid : Nat) (now : Int) : Except PostError CPost :=
  match post with
  | none => Except.error PostError.notFound
  | some p0 =>
    if (checkPostExpiration p0 now).fst then Except.error PostError.postExpired
    else
      let p := (checkPostExpiration p0 now).snd
      if p.author = uid then Except.error PostError.selfForbidden
      else if p.likedBy.contains uid then Except.error PostError.alreadyLiked
      else
        let p1 :=
          if p.dislikedBy.contains uid then
            { p with dislikedBy := p.dislikedBy.filter (fun i => i != uid),
                     dislikes := max 0 (p.dislikes - 1) }
          else p
        Except.ok (preSaveC now
          { p1 with likedBy := p1.likedBy ++ [uid], likes := p1.likes + 1 })

/-- dislikePost of src/unnamed/part_001 lines 215-262, symmetric to
likePost with the roles of the two sets and counters swapped. -/
def ctrlDislike (post : Option CPost) (uid : Nat) (now : Int) : Except PostError CPost :=
  match post with
  | none => Except.error PostError.notFound
  | some p0 =>
    if (checkPostExpiration p0 now).fst then Except.error PostError.postExpired
    else
      let p := (checkPostExpiration p0 now).snd
      if p.author = uid then Except.error PostError.selfForbidden
      else if p.dislikedBy.contains uid then Except.error PostError.alreadyDisliked
      else
        let p1 :=
          if p.likedBy.contains uid then
            { p with likedBy := p.likedBy.filter (fun i => i != uid),
                     likes := max 0 (p.likes - 1) }
          else p
        Except.ok (preSaveC now
          { p1 with dislikedBy := p1.dislikedBy ++ [uid], dislikes := p1.dislikes + 1 })

/-- addComment of src/unnamed/part_001 lines 267-309: a falsy (empty)
text is rejected first, then existence, then the expiry check, then the
append. The pushed comment has no username field in this variant; the
model stores an empty string there. -/
def ctrlComment (post : Option CPost) (uid : Nat) (text : String) (now : Int) :
    Except PostError CPost :=
  if text = "" then Except.error PostError.validationError
  else
    match post with
    | none => Except.error PostError.notFound
    | some p0 =>
      if (checkPostExpiration p0 now).fst then Except.error PostError.postExpired
      else
        let p := (checkPostExpiration p0 now).snd
        Except.ok (preSaveC now
          { p with comments := p.comments ++
              [{ user := uid, username := "", text := text, createdAt := now }] })

/-! ### Query surface -/

/-- Stable insertion into a list kept in descending key order: the new
element goes in front of the first strictly smaller key, after any equal
key already present. -/
def insertDesc {A : Type} (key : A → Int) (p : A) : List A → List A
  | [] => [p]
  | q :: qs => if key p > key q then p :: q :: qs else q :: insertDesc key p qs

/-- Stable sort into descending key order, modelling a mongo sort with -1
on the key over a store held in insertion order. -/
def sortDesc {A : Type} (key : A → Int) (l : List A) : List A :=
  l.foldl (fun acc p => insertDesc key p acc) []

/-- Browse-by-topic route of src/src/routes/posts.js lines 72-89: topic
validated against the closed set, then the store is filtered on topic and
on the cached status field being Live — the expiry timestamp is never
consulted, so the result does not depend on the query time — and sorted
newest first on createdAt. -/
def ssrGetTopic (store : List RPost) (topic : String) : Except PostError (List RPost) :=
  if TOPICS.contains topic then
    Except.ok (sortDesc (fun p => p.createdAt)
      (store.filter (fun p => decide (p.topic = topic ∧ p.status = Status.Live))))
  else Except.error PostError.invalidTopic

/-- getPostsByTopic of src/unnamed/part_001 lines 132-158: topic
validated, stale statuses flipped by updateExpiredPosts, then every post
of the topic is returned regardless of status, newest first. -/
def ctrlGetPostsByTopic (store : List CPost) (topic : String) (now : Int) :
    Except PostError (List CPost) :=
  if validateTopic topic then
    Except.ok (sortDesc (fun p => p.createdAt)
      ((updateExpiredC now store).filter (fun p => decide (p.topic = topic))))
  else Except.error PostError.invalidTopic

/-- Activity score of the route variants: likes plus dislikes array
lengths. -/
def scoreR (p : RPost) : Nat := p.likes.length + p.dislikes.length

/-- The posts the most-active route of src/src/routes/posts.js considers:
topic match and cached Live status. -/
def liveTopicR (store : List RPost) (topic : String) : List RPost :=
  store.filter (fun p => decide (p.topic = topic ∧ p.status = Status.Live))

/-- Most-active route of src/src/routes/posts.js lines 220-251: no topic
validation, posts filtered on topic and cached Live status, 404 when none
match, otherwise the reduce keeps the incumbent on ties, so the first
post in store order with the maximum likes-plus-dislikes score wins. -/
def ssrActive (store : List RPost) (topic : String) : Except PostError (RPost × Nat) :=
  match liveTopicR store topic with
  | [] => Except.error PostError.noPosts
  | first :: rest =>
    let m := rest.foldl (fun acc p => if scoreR p > scoreR acc then p else acc) first
    Except.ok (m, scoreR m)

/-- getTotalActivity of src/models/Post.js lines 102-104: the sum of the
numeric counters. -/
def getTotalActivity (p : CPost) : Int := p.likes + p.dislikes

/-- getMostActivePost of src/unnamed/part_001 lines 314-356: topic
validated, stale statuses flipped, then every post of the topic —
expired ones included, there is no status filter — is ranked by the
numeric counters, keeping the incumbent on ties; the no-posts error fires
only when the topic has no posts at all. -/
def ctrlMostActive (store : List CPost) (topic : String) (now : Int) :
    Except PostError (CPost × Int) :=
  if validateTopic topic then
    match (updateExpiredC now store).filter (fun p => decide (p.topic = topic)) with
    | [] => Except.error PostError.noPosts
    | first :: rest =>
      Except.ok ((first :: rest).foldl
        (fun (acc : CPost × Int) p =>
          if getTotalActivity p > acc.2 then (p, getTotalActivity p) else acc)
        (first, getTotalActivity first))
  else Except.error PostError.invalidTopic

/-- Expired-history route of src/unnamed/part_002 lines 235-258: topic
validated, stale statuses flipped by the inline updateMany, then the
store is filtered on topic and Expired status and sorted on
expirationTime descending. -/
def rt2Expired (store : List RPost) (topic : String) (now : Int) :
    Except PostError (List RPost) :=
  if TOPICS.contains topic then
    Except.ok (sortDesc (fun p => p.expirationTime)
      ((updateExpiredR now store).filter
        (fun p => decide (p.topic = topic ∧ p.status = Status.Expired))))
  else Except.error PostError.invalidTopic

/-! ### Reaction sequences -/

/-- One like or dislike request against a single post in the
src/src/routes/posts.js variant, tagged with the acting user and the
request time. -/
inductive ROp where
  | like (uid : Nat) (now : Int)
  | dislike (uid : Nat) (now : Int)

/-- Applies one ssr reaction to a stored post; a failed request leaves
the store unchanged. -/
def applyROp (p : RPost) : ROp → RPost
  | ROp.like uid now =>
    match ssrLike (some p) uid now with
    | Except.ok q => q
    | Except.error _ => p
  | ROp.dislike uid now =>
    match ssrDislike (some p) uid now with
    | Except.ok q => q
    | Except.error _ => p

/-- Applies a sequence of ssr reactions in order. -/
def applyROps (p : RPost) (ops : List ROp) : RPost := ops.foldl applyROp p

/-- One like or dislike request against a single post in the
src/unnamed/part_001 controller variant. -/
inductive COp where
  | like (uid : Nat) (now : Int)
  | dislike (uid : Nat) (now : Int)

/-- Applies one controller reaction to a stored post; a failed request
leaves the store unchanged. -/
def applyCOp (p : CPost) : COp → CPost
  | COp.like uid now =>
    match ctrlLike (some p) uid now with
    | Except.ok q => q
    | Except.error _ => p
  | COp.dislike uid now =>
    match ctrlDislike (some p) uid now with
    | Except.ok q => q
    | Except.error _ => p

/-- Applies a sequence of controller reactions in order. -/
def applyCOps (p : CPost) (ops : List COp) : CPost := ops.foldl applyCOp p

/-! ### Sample records used by witnesses and counterexamples -/

/-- A live Tech post by user 1 expiring at time 100. -/
def samplePost : RPost :=
  { title := "t", content := "c", topic := "Tech", author := 1, authorUsername := "alice",
    expirationTime := 100, status := Status.Live, likes := [], dislikes := [],
    comments := [], createdAt := 0 }

/-- The same post with the cached status already flipped to Expired. -/
def sampleExpired : RPost := { samplePost with status := Status.Expired }

/-- The same post already liked by user 2. -/
def likedSample : RPost := { samplePost with likes := [2] }

/-- A live controller-variant Tech post by user 1 expiring at time 100,
with the counters at their schema defaults. -/
def cSample : CPost :=
  { title := "t", content := "c", topic := "Tech", author := 1, authorUsername := "alice",
    expirationTime := 100, status := Status.Live, likes := 0, dislikes := 0,
    likedBy := [], dislikedBy := [], comments := [], createdAt := 0 }

/-! ### Helper lemmas -/

theorem mem_filter_ne {l : List Nat} {uid v : Nat} :
    v ∈ l.filter (fun i => i != uid) ↔ v ∈ l ∧ v ≠ uid := by
  simp [List.mem_filter]

theorem not_mem_filter_ne (l : List Nat) (uid : Nat) :
    uid ∉ l.filter (fun i => i != uid) := by
  simp [mem_filter_ne]

theorem preSaveR_likes (now : Int) (p : RPost) : (preSaveR now p).likes = p.likes := by
  unfold preSaveR; split <;> rfl

theorem preSaveR_dislikes (now : Int) (p : RPost) : (preSaveR now p).dislikes = p.dislikes := by
  unfold preSaveR; split <;> rfl

theorem preSaveR_author (now : Int) (p : RPost) : (preSaveR now p).author = p.author := by
  unfold preSaveR; split <;> rfl

theorem preSaveR_expirationTime (now : Int) (p : RPost) :
    (preSaveR now p).expirationTime = p.expirationTime := by
  unfold preSaveR; split <;> rfl

theorem preSaveR_of_not_past {now : Int} {p : RPost} (h : ¬ now > p.expirationTime) :
    preSaveR now p = p := by
  unfold preSaveR; simp [h]

theorem preSaveC_likedBy (now : Int) (p : CPost) : (preSaveC now p).likedBy = p.likedBy := by
  unfold preSaveC; split <;> rfl

theorem preSaveC_dislikedBy (now : Int) (p : CPost) :
    (preSaveC now p).dislikedBy = p.dislikedBy := by
  unfold preSaveC; split <;> rfl

theorem preSaveC_likes (now : Int) (p : CPost) : (preSaveC now p).likes = p.likes := by
  unfold preSaveC; split <;> rfl

theorem preSaveC_dislikes (now : Int) (p : CPost) : (preSaveC now p).dislikes = p.dislikes := by
  unfold preSaveC; split <;> rfl


theorem insertDesc_perm {A : Type} (key : A → Int) (p : A) (l : List A) :
    (insertDesc key p l).Perm (p :: l) := by
  induction l with
  | nil => simp [insertDesc]
  | cons q qs ih =>
    simp only [insertDesc]
    split
    · exact List.Perm.refl _
    · exact (ih.cons q).trans (List.Perm.swap p q qs)

theorem mem_insertDesc {A : Type} (key : A → Int) (p b : A) (l : List A) :
    b ∈ insertDesc key p l ↔ b = p ∨ b ∈ l := by
  rw [(insertDesc_perm key p l).mem_iff]
  simp

theorem foldl_insertDesc_perm {A : Type} (key : A → Int) :
    ∀ (l acc : List A),
      (l.foldl (fun acc p => insertDesc key p acc) acc).Perm (acc ++ l)
  | [], acc => by simp
  | x :: xs, acc => by
    simp only [List.foldl_cons]
    refine (foldl_insertDesc_perm key xs (insertDesc key x acc)).trans ?_
    refine ((insertDesc_perm key x acc).append_right xs).trans ?_
    exact List.perm_middle.symm

theorem sortDesc_perm {A : Type} (key : A → Int) (l : List A) :
    (sortDesc key l).Perm l := by
  simpa [sortDesc] using foldl_insertDesc_perm key l []

theorem insertDesc_pairwise {A : Type} (key : A → Int) (p : A) (l : List A)
    (h : l.Pairwise (fun a b => key b ≤ key a)) :
    (insertDesc key p l).Pairwise (fun a b => key b ≤ key a) := by
  induction l with
  | nil => simp [insertDesc]
  | cons q qs ih =>
    rw [List.pairwise_cons] at h
    obtain ⟨hq, hqs⟩ := h
    simp only [insertDesc]
    split
    · rename_i hgt
      refine List.pairwise_cons.mpr ⟨?_, List.pairwise_cons.mpr ⟨hq, hqs⟩⟩
      intro b hb
      rcases List.mem_cons.mp hb with hb | hb
      · exact hb ▸ le_of_lt hgt
      · exact le_trans (hq b hb) (le_of_lt hgt)
    · rename_i hle
      refine List.pairwise_cons.mpr ⟨?_, ih hqs⟩
      intro b hb
      rcases (mem_insertDesc key p b qs).mp hb with hb | hb
      · exact hb ▸ le_of_not_lt hle
      · exact hq b hb

theorem sortDesc_pairwise {A : Type} (key : A → Int) (l : List A) :
    (sortDesc key l).Pairwise (fun a b => key b ≤ key a) := by
  have main : ∀ (l acc : List A), acc.Pairwise (fun a b => key b ≤ key a) →
      (l.foldl (fun acc p => insertDesc key p acc) acc).Pairwise
        (fun a b => key b ≤ key a) := by
    intro l
    induction l with
    | nil => intro acc h; simpa using h
    | cons x xs ih => intro acc h; exact ih _ (insertDesc_pairwise key x acc h)
  simpa [sortDesc] using main l [] (by simp)


/-- The accumulator fold shared by the most-active handlers: keeps the
incumbent unless a strictly higher score appears. -/
def bestBy {A : Type} (score : A → Nat) (first : A) (rest : List A) : A :=
  rest.foldl (fun acc p => if score p > score acc then p else acc) first

theorem bestBy_spec {A : Type} (score : A → Nat) (key : A → Int) :
    ∀ (rest : List A) (first : A),
      (first :: rest).Pairwise (fun a b => key a ≤ key b) →
      bestBy score first rest ∈ first :: rest ∧
      (∀ q ∈ first :: rest, score q ≤ score (bestBy score first rest)) ∧
      (∀ q ∈ first :: rest, score q = score (bestBy score first rest) →
        key (bestBy score first rest) ≤ key q) := by
  intro rest
  induction rest with
  | nil =>
    intro first h
    refine ⟨by simp [bestBy], ?_, ?_⟩ <;> simp [bestBy]
  | cons b t ih =>
    intro first h
    have hstep : bestBy score first (b :: t) =
        bestBy score (if score b > score first then b else first) t := rfl
    set acc := if score b > score first then b else first with hacc
    have hfb : key first ≤ key b := (List.pairwise_cons.mp h).1 b (by simp)
    have hft : ∀ c ∈ t, key first ≤ key c := by
      intro c hc
      exact (List.pairwise_cons.mp h).1 c (by simp [hc])
    have hbt : ∀ c ∈ t, key b ≤ key c := by
      intro c hc
      exact (List.pairwise_cons.mp (List.pairwise_cons.mp h).2).1 c hc
    have htp : t.Pairwise (fun a b => key a ≤ key b) :=
      (List.pairwise_cons.mp (List.pairwise_cons.mp h).2).2
    have haccp : (acc :: t).Pairwise (fun a b => key a ≤ key b) := by
      refine List.pairwise_cons.mpr ⟨?_, htp⟩
      intro c hc
      rw [hacc]
      split
      · exact hbt c hc
      · exact hft c hc
    obtain ⟨hmem, hmax, htie⟩ := ih acc haccp
    rw [hstep]
    have hacc_le : score acc ≤ score (bestBy score acc t) := hmax acc (by simp)
    have hfirst_le_acc : score first ≤ score acc := by
      rw [hacc]; split
      · omega
      · exact le_refl _
    have hb_le_acc : score b ≤ score acc := by
      rw [hacc]; split
      · exact le_refl _
      · omega
    refine ⟨?_, ?_, ?_⟩
    · rcases List.mem_cons.mp hmem with hm | hm
      · rw [hm, hacc]
        split
        · simp
        · simp
      · simp [hm]
    · intro q hq
      rcases List.mem_cons.mp hq with hq | hq
      · subst hq; exact le_trans hfirst_le_acc hacc_le
      · rcases List.mem_cons.mp hq with hq | hq
        · subst hq; exact le_trans hb_le_acc hacc_le
        · exact hmax q (by simp [hq])
    · intro q hq hqs
      rcases List.mem_cons.mp hq with hq | hq
      · rw [hq] at hqs ⊢
        by_cases hsb : score b > score first
        · exfalso
          have hsacc : score acc = score b := by rw [hacc, if_pos hsb]
          omega
        · have hsacc : score acc = score first := by rw [hacc, if_neg hsb]
          have hkacc : key acc = key first := by rw [hacc, if_neg hsb]
          have hk : key (bestBy score acc t) ≤ key acc := htie acc (by simp) (by omega)
          exact le_trans hk (le_of_eq hkacc)
      · rcases List.mem_cons.mp hq with hq | hq
        · rw [hq] at hqs ⊢
          by_cases hsb : score b > score first
          · have hsacc : score acc = score b := by rw [hacc, if_pos hsb]
            have hkacc : key acc = key b := by rw [hacc, if_pos hsb]
            have hk : key (bestBy score acc t) ≤ key acc := htie acc (by simp) (by omega)
            exact le_trans hk (le_of_eq hkacc)
          · have hsacc : score acc = score first := by rw [hacc, if_neg hsb]
            have hkacc : key acc = key first := by rw [hacc, if_neg hsb]
            have hk : key (bestBy score acc t) ≤ key acc := htie acc (by simp) (by omega)
            exact le_trans (le_trans hk (le_of_eq hkacc)) hfb
        · exact htie q (by simp [hq]) hqs


theorem contains_iff_mem {l : List Nat} {uid : Nat} : l.contains uid = true ↔ uid ∈ l := by
  simp

theorem checkPostExpiration_fst_iff (p : CPost) (now : Int) :
    (checkPostExpiration p now).fst = true ↔
      (p.status = Status.Expired ∨ now > p.expirationTime) := by
  unfold checkPostExpiration
  split
  · rename_i hc
    simp [hc.1]
  · rename_i hc
    cases hs : p.status <;> simp_all

theorem checkPostExpiration_snd_author (p : CPost) (now : Int) :
    (checkPostExpiration p now).snd.author = p.author := by
  unfold checkPostExpiration; split <;> rfl

theorem checkPostExpiration_snd_likedBy (p : CPost) (now : Int) :
    (checkPostExpiration p now).snd.likedBy = p.likedBy := by
  unfold checkPostExpiration; split <;> rfl

theorem checkPostExpiration_snd_dislikedBy (p : CPost) (now : Int) :
    (checkPostExpiration p now).snd.dislikedBy = p.dislikedBy := by
  unfold checkPostExpiration; split <;> rfl

theorem checkPostExpiration_snd_likes (p : CPost) (now : Int) :
    (checkPostExpiration p now).snd.likes = p.likes := by
  unfold checkPostExpiration; split <;> rfl

theorem checkPostExpiration_snd_dislikes (p : CPost) (now : Int) :
    (checkPostExpiration p now).snd.dislikes = p.dislikes := by
  unfold checkPostExpiration; split <;> rfl

theorem rt2Like_expired {p : RPost} {uid : Nat} {now : Int}
    (h : p.status = Status.Expired ∨ now > p.expirationTime) :
    rt2Like (some p) uid now = Except.error PostError.postExpired := by
  simp [rt2Like, h]

theorem rt2Dislike_expired {p : RPost} {uid : Nat} {now : Int}
    (h : p.status = Status.Expired ∨ now > p.expirationTime) :
    rt2Dislike (some p) uid now = Except.error PostError.postExpired := by
  simp [rt2Dislike, h]

theorem rt2Comment_expired {p : RPost} {uid : Nat} {uname text : String} {now : Int}
    (h : p.status = Status.Expired ∨ now > p.expirationTime)
    (ht : ¬ (jsTrim text = "" ∨ (jsTrim text).length > 500)) :
    rt2Comment (some p) uid uname text now = Except.error PostError.postExpired := by
  simp only [rt2Comment, if_neg ht, if_pos h]

theorem ctrlLike_expired {p : CPost} {uid : Nat} {now : Int}
    (h : p.status = Status.Expired ∨ now > p.expirationTime) :
    ctrlLike (some p) uid now = Except.error PostError.postExpired := by
  have hf : (checkPostExpiration p now).fst = true :=
    (checkPostExpiration_fst_iff p now).mpr h
  simp [ctrlLike, hf]

theorem ctrlDislike_expired {p : CPost} {uid : Nat} {now : Int}
    (h : p.status = Status.Expired ∨ now > p.expirationTime) :
    ctrlDislike (some p) uid now = Except.error PostError.postExpired := by
  have hf : (checkPostExpiration p now).fst = true :=
    (checkPostExpiration_fst_iff p now).mpr h
  simp [ctrlDislike, hf]

theorem ctrlComment_expired {p : CPost} {uid : Nat} {text : String} {now : Int}
    (h : p.status = Status.Expired ∨ now > p.expirationTime) (ht : text ≠ "") :
    ctrlComment (some p) uid text now = Except.error PostError.postExpired := by
  have hf : (checkPostExpiration p now).fst = true :=
    (checkPostExpiration_fst_iff p now).mpr h
  simp [ctrlComment, hf, ht]

theorem rt2Like_self {p : RPost} {uid : Nat} {now : Int}
    (hlive : p.status = Status.Live) (hexp : ¬ now > p.expirationTime)
    (hauth : p.author = uid) :
    rt2Like (some p) uid now = Except.error PostError.selfForbidden := by
  have hne : ¬ (p.status = Status.Expired ∨ now > p.expirationTime) := by
    simp [hlive, hexp]
  simp [rt2Like, hne, hauth]

theorem rt2Like_ok {p : RPost} {uid : Nat} {now : Int}
    (hlive : p.status = Status.Live) (hexp : ¬ now > p.expirationTime)
    (hauth : p.author ≠ uid) :
    ∃ q, rt2Like (some p) uid now = Except.ok q ∧
      q.status = Status.Live ∧ q.expirationTime = p.expirationTime ∧
      q.author = p.author ∧ (uid ∈ q.likes ↔ uid ∉ p.likes) ∧ uid ∉ q.dislikes := by
  have hne : ¬ (p.status = Status.Expired ∨ now > p.expirationTime) := by
    simp [hlive, hexp]
  simp only [rt2Like, if_neg hne, if_neg hauth]
  refine ⟨_, rfl, ?_, ?_, ?_, ?_, ?_⟩
  · split <;> (rw [preSaveR_of_not_past (by simpa using hexp)]; exact hlive)
  · split <;> rw [preSaveR_expirationTime]
  · split <;> rw [preSaveR_author]
  · split
    · rename_i hc
      rw [preSaveR_likes]
      have hm : uid ∈ p.likes := by simpa using hc
      simp [mem_filter_ne, hm]
    · rename_i hc
      rw [preSaveR_likes]
      have hm : uid ∉ p.likes := by simpa using hc
      simp [hm]
  · split <;> (rw [preSaveR_dislikes]; simp [mem_filter_ne])

theorem rt2Dislike_ok {p : RPost} {uid : Nat} {now : Int}
    (hlive : p.status = Status.Live) (hexp : ¬ now > p.expirationTime) :
    ∃ q, rt2Dislike (some p) uid now = Except.ok q ∧
      q.status = Status.Live ∧ q.expirationTime = p.expirationTime ∧
      q.author = p.author ∧ (uid ∈ q.dislikes ↔ uid ∉ p.dislikes) ∧ uid ∉ q.likes := by
  have hne : ¬ (p.status = Status.Expired ∨ now > p.expirationTime) := by
    simp [hlive, hexp]
  simp only [rt2Dislike, if_neg hne]
  refine ⟨_, rfl, ?_, ?_, ?_, ?_, ?_⟩
  · split <;> (rw [preSaveR_of_not_past (by simpa using hexp)]; exact hlive)
  · split <;> rw [preSaveR_expirationTime]
  · split <;> rw [preSaveR_author]
  · split
    · rename_i hc
      rw [preSaveR_dislikes]
      have hm : uid ∈ p.dislikes := by simpa using hc
      simp [mem_filter_ne, hm]
    · rename_i hc
      rw [preSaveR_dislikes]
      have hm : uid ∉ p.dislikes := by simpa using hc
      simp [hm]
  · split <;> (rw [preSaveR_likes]; simp [mem_filter_ne])

theorem ssrLike_ok (p : RPost) (uid : Nat) (now : Int) :
    ∃ q, ssrLike (some p) uid now = Except.ok q ∧
      (uid ∈ q.likes ↔ uid ∉ p.likes) ∧ uid ∉ q.dislikes := by
  simp only [ssrLike]
  refine ⟨_, rfl, ?_, ?_⟩
  · split
    · rename_i hc
      rw [preSaveR_likes]
      have hm : uid ∈ p.likes := by simpa using hc
      simp [mem_filter_ne, hm]
    · rename_i hc
      rw [preSaveR_likes]
      have hm : uid ∉ p.likes := by simpa using hc
      simp [hm]
  · split <;> (rw [preSaveR_dislikes]; simp [mem_filter_ne])


theorem applyROp_disjoint (p : RPost) (op : ROp)
    (h : p.likes.Disjoint p.dislikes) :
    (applyROp p op).likes.Disjoint (applyROp p op).dislikes := by
  cases op with
  | like uid now =>
    simp only [applyROp, ssrLike]
    rw [preSaveR_likes, preSaveR_dislikes]
    split
    · intro a ha hb
      simp only [mem_filter_ne] at ha hb
      exact h ha.1 hb.1
    · intro a ha hb
      simp only [List.mem_append, List.mem_singleton] at ha
      simp only [mem_filter_ne] at hb
      rcases ha with ha | ha
      · exact h ha hb.1
      · exact hb.2 ha
  | dislike uid now =>
    simp only [applyROp, ssrDislike]
    rw [preSaveR_likes, preSaveR_dislikes]
    split
    · intro a ha hb
      simp only [mem_filter_ne] at ha hb
      exact h ha.1 hb.1
    · intro a ha hb
      simp only [List.mem_append, List.mem_singleton] at hb
      simp only [mem_filter_ne] at ha
      rcases hb with hb | hb
      · exact h ha.1 hb
      · exact ha.2 hb

theorem applyROps_disjoint (p : RPost) (ops : List ROp)
    (h : p.likes.Disjoint p.dislikes) :
    (applyROps p ops).likes.Disjoint (applyROps p ops).dislikes := by
  induction ops generalizing p with
  | nil => simpa [applyROps] using h
  | cons op ops ih =>
    have h1 := applyROp_disjoint p op h
    simpa [applyROps, List.foldl_cons] using ih (applyROp p op) h1

theorem applyCOp_disjoint (p : CPost) (op : COp)
    (h : p.likedBy.Disjoint p.dislikedBy) :
    (applyCOp p op).likedBy.Disjoint (applyCOp p op).dislikedBy := by
  cases op with
  | like uid now =>
    simp only [applyCOp, ctrlLike]
    by_cases h1 : (checkPostExpiration p now).fst = true
    · simp only [if_pos h1]
      exact h
    · simp only [if_neg h1]
      by_cases h2 : (checkPostExpiration p now).snd.author = uid
      · simp only [if_pos h2]
        exact h
      · simp only [if_neg h2]
        by_cases h3 : (checkPostExpiration p now).snd.likedBy.contains uid = true
        · simp only [if_pos h3]
          exact h
        · simp only [if_neg h3]
          by_cases hc : p.dislikedBy.contains uid = true
          · simp only [checkPostExpiration_snd_likedBy, checkPostExpiration_snd_dislikedBy,
              if_pos hc, preSaveC_likedBy, preSaveC_dislikedBy]
            intro a ha hb
            simp only [List.mem_append, List.mem_singleton] at ha
            simp only [mem_filter_ne] at hb
            rcases ha with ha | ha
            · exact h ha hb.1
            · exact hb.2 ha
          · have hnd : uid ∉ p.dislikedBy := by simpa using hc
            simp only [checkPostExpiration_snd_likedBy, checkPostExpiration_snd_dislikedBy,
              if_neg hc, preSaveC_likedBy, preSaveC_dislikedBy]
            intro a ha hb
            simp only [List.mem_append, List.mem_singleton] at ha
            rcases ha with ha | ha
            · exact h ha hb
            · rw [ha] at hb
              exact hnd hb
  | dislike uid now =>
    simp only [applyCOp, ctrlDislike]
    by_cases h1 : (checkPostExpiration p now).fst = true
    · simp only [if_pos h1]
      exact h
    · simp only [if_neg h1]
      by_cases h2 : (checkPostExpiration p now).snd.author = uid
      · simp only [if_pos h2]
        exact h
      · simp only [if_neg h2]
        by_cases h3 : (checkPostExpiration p now).snd.dislikedBy.contains uid = true
        · simp only [if_pos h3]
          exact h
        · simp only [if_neg h3]
          by_cases hc : p.likedBy.contains uid = true
          · simp only [checkPostExpiration_snd_likedBy, checkPostExpiration_snd_dislikedBy,
              if_pos hc, preSaveC_likedBy, preSaveC_dislikedBy]
            intro a ha hb
            simp only [List.mem_append, List.mem_singleton] at hb
            simp only [mem_filter_ne] at ha
            rcases hb with hb | hb
            · exact h ha.1 hb
            · exact ha.2 hb
          · have hnl : uid ∉ p.likedBy := by simpa using hc
            simp only [checkPostExpiration_snd_likedBy, checkPostExpiration_snd_dislikedBy,
              if_neg hc, preSaveC_likedBy, preSaveC_dislikedBy]
            intro a ha hb
            simp only [List.mem_append, List.mem_singleton] at hb
            rcases hb with hb | hb
            · exact h ha hb
            · rw [hb] at ha
              exact hnl ha

theorem applyCOps_disjoint (p : CPost) (ops : List COp)
    (h : p.likedBy.Disjoint p.dislikedBy) :
    (applyCOps p ops).likedBy.Disjoint (applyCOps p ops).dislikedBy := by
  induction ops generalizing p with
  | nil => simpa [applyCOps] using h
  | cons op ops ih =>
    have h1 := applyCOp_disjoint p op h
    simpa [applyCOps, List.foldl_cons] using ih (applyCOp p op) h1

theorem applyCOp_nonneg (p : CPost) (op : COp)
    (hl : 0 ≤ p.likes) (hd : 0 ≤ p.dislikes) :
    0 ≤ (applyCOp p op).likes ∧ 0 ≤ (applyCOp p op).dislikes := by
  cases op with
  | like uid now =>
    simp only [applyCOp, ctrlLike]
    by_cases h1 : (checkPostExpiration p now).fst = true
    · simp only [if_pos h1]
      exact ⟨hl, hd⟩
    · simp only [if_neg h1]
      by_cases h2 : (checkPostExpiration p now).snd.author = uid
      · simp only [if_pos h2]
        exact ⟨hl, hd⟩
      · simp only [if_neg h2]
        by_cases h3 : (checkPostExpiration p now).snd.likedBy.contains uid = true
        · simp only [if_pos h3]
          exact ⟨hl, hd⟩
        · simp only [if_neg h3]
          by_cases hc : (checkPostExpiration p now).snd.dislikedBy.contains uid = true
          · simp only [if_pos hc, preSaveC_likes, preSaveC_dislikes,
              checkPostExpiration_snd_likes, checkPostExpiration_snd_dislikes]
            exact ⟨by omega, le_max_left 0 _⟩
          · simp only [if_neg hc, preSaveC_likes, preSaveC_dislikes,
              checkPostExpiration_snd_likes, checkPostExpiration_snd_dislikes]
            exact ⟨by omega, hd⟩
  | dislike uid now =>
    simp only [applyCOp, ctrlDislike]
    by_cases h1 : (checkPostExpiration p now).fst = true
    · simp only [if_pos h1]
      exact ⟨hl, hd⟩
    · simp only [if_neg h1]
      by_cases h2 : (checkPostExpiration p now).snd.author = uid
      · simp only [if_pos h2]
        exact ⟨hl, hd⟩
      · simp only [if_neg h2]
        by_cases h3 : (checkPostExpiration p now).snd.dislikedBy.contains uid = true
        · simp only [if_pos h3]
          exact ⟨hl, hd⟩
        · simp only [if_neg h3]
          by_cases hc : (checkPostExpiration p now).snd.likedBy.contains uid = true
          · simp only [if_pos hc, preSaveC_likes, preSaveC_dislikes,
              checkPostExpiration_snd_likes, checkPostExpiration_snd_dislikes]
            exact ⟨le_max_left 0 _, by omega⟩
          · simp only [if_neg hc, preSaveC_likes, preSaveC_dislikes,
              checkPostExpiration_snd_likes, checkPostExpiration_snd_dislikes]
            exact ⟨hl, by omega⟩

theorem applyCOps_nonneg (p : CPost) (ops : List COp)
    (hl : 0 ≤ p.likes) (hd : 0 ≤ p.dislikes) :
    0 ≤ (applyCOps p ops).likes ∧ 0 ≤ (applyCOps p ops).dislikes := by
  induction ops generalizing p with
  | nil => exact ⟨by simpa [applyCOps] using hl, by simpa [applyCOps] using hd⟩
  | cons op ops ih =>
    obtain ⟨h1, h2⟩ := applyCOp_nonneg p op hl hd
    simpa [applyCOps, List.foldl_cons] using ih (applyCOp p op) h1 h2


theorem preSaveR_createdAt (now : Int) (p : RPost) :
    (preSaveR now p).createdAt = p.createdAt := by
  unfold preSaveR; split <;> rfl

theorem preSaveR_status_of_le {now : Int} {p : RPost} (h : ¬ now > p.expirationTime) :
    (preSaveR now p).status = p.status := by
  simp [preSaveR, h]

theorem preSaveR_status_of_past {now : Int} {p : RPost} (h : now > p.expirationTime) :
    (preSaveR now p).status = Status.Expired := by
  simp [preSaveR, h]

/-! ### Claims -/

/-- C1 (amended): in the expiry-checking variants — the part_002 routes
and the part_001 controllers — every mutating operation (like, dislike,
add comment) on an existing post is rejected with PostExpired whenever
the cached status is Expired or the current time is strictly past
expiresAt, so the rejection does not depend on cached-status staleness
(text validation still precedes the check for comments); but the
comparison is strict, so an operation arriving exactly at the expiry
instant is accepted, and the like, dislike and comment routes of
src/src/routes/posts.js perform no expiry check at all. -/
theorem c1_expired_mutations_rejected :
    (∀ (p : RPost) (uid : Nat) (now : Int),
        p.status = Status.Expired ∨ now > p.expirationTime →
        rt2Like (some p) uid now = Except.error PostError.postExpired ∧
        rt2Dislike (some p) uid now = Except.error PostError.postExpired) ∧
    (∀ (p : RPost) (uid : Nat) (uname text : String) (now : Int),
        p.status = Status.Expired ∨ now > p.expirationTime →
        ¬ (jsTrim text = "" ∨ (jsTrim text).length > 500) →
        rt2Comment (some p) uid uname text now = Except.error PostError.postExpired) ∧
    (∀ (p : CPost) (uid : Nat) (now : Int),
        p.status = Status.Expired ∨ now > p.expirationTime →
        ctrlLike (some p) uid now = Except.error PostError.postExpired ∧
        ctrlDislike (some p) uid now = Except.error PostError.postExpired) ∧
    (∀ (p : CPost) (uid : Nat) (text : String) (now : Int),
        p.status = Status.Expired ∨ now > p.expirationTime → text ≠ "" →
        ctrlComment (some p) uid text now = Except.error PostError.postExpired) ∧
    (∀ (p : RPost) (uid : Nat),
        p.status = Status.Live → p.author ≠ uid →
        ∃ q, rt2Like (some p) uid p.expirationTime = Except.ok q) := by
  refine ⟨?_, ?_, ?_, ?_, ?_⟩
  · intro p uid now h
    exact ⟨rt2Like_expired h, rt2Dislike_expired h⟩
  · intro p uid uname text now h ht
    exact rt2Comment_expired h ht
  · intro p uid now h
    exact ⟨ctrlLike_expired h, ctrlDislike_expired h⟩
  · intro p uid text now h ht
    exact ctrlComment_expired h ht
  · intro p uid hlive hauth
    obtain ⟨q, hq, _⟩ := @rt2Like_ok p uid p.expirationTime hlive (by omega) hauth
    exact ⟨q, hq⟩

/-- Witness for C1: a like against a post whose cached status is Expired
is rejected with PostExpired. -/
theorem c1_witness :
    rt2Like (some sampleExpired) 2 50 = Except.error PostError.postExpired :=
  (c1_expired_mutations_rejected.1 sampleExpired 2 50 (Or.inl rfl)).1

/-- Counterexample to C1 as stated: the sample post expires at 100, so at
now = 100 it is expired per the specification definition now >= expiresAt,
yet the part_002 like succeeds; and the mounted comment route succeeds
even at now = 1000, far past expiry. -/
theorem c1_counterexample :
    (∃ q, rt2Like (some samplePost) 2 100 = Except.ok q) ∧
    (∃ q, ssrComment (some samplePost) 2 "bob" "hi" 1000 = Except.ok q) ∧
    isExpiredSpec samplePost.expirationTime 100 = true ∧
    isExpiredSpec samplePost.expirationTime 1000 = true :=
  ⟨⟨_, rfl⟩, ⟨_, rfl⟩, rfl, rfl⟩

/-- C2 (amended): the part_002 like route checks existence, expiry and
self-interaction in that order, first failure winning, and only then
toggles (removing the caller from dislikes); the part_002 dislike route
checks existence and expiry but omits the self-interaction check, so an
author can dislike the own post; and the mounted src/src/routes/posts.js
like route checks only existence before toggling. -/
theorem c2_like_dislike_preconditions :
    (∀ (uid : Nat) (now : Int),
        rt2Like none uid now = Except.error PostError.notFound ∧
        rt2Dislike none uid now = Except.error PostError.notFound ∧
        ssrLike none uid now = Except.error PostError.notFound ∧
        ssrDislike none uid now = Except.error PostError.notFound) ∧
    (∀ (p : RPost) (uid : Nat) (now : Int),
        p.status = Status.Expired ∨ now > p.expirationTime →
        rt2Like (some p) uid now = Except.error PostError.postExpired ∧
        rt2Dislike (some p) uid now = Except.error PostError.postExpired) ∧
    (∀ (p : RPost) (uid : Nat) (now : Int),
        p.status = Status.Live → ¬ now > p.expirationTime → p.author = uid →
        rt2Like (some p) uid now = Except.error PostError.selfForbidden) ∧
    (∀ (p : RPost) (uid : Nat) (now : Int),
        p.status = Status.Live → ¬ now > p.expirationTime → p.author ≠ uid →
        ∃ q, rt2Like (some p) uid now = Except.ok q ∧
          (uid ∈ q.likes ↔ uid ∉ p.likes) ∧ uid ∉ q.dislikes) ∧
    (∀ (p : RPost) (uid : Nat) (now : Int),
        p.status = Status.Live → ¬ now > p.expirationTime →
        ∃ q, rt2Dislike (some p) uid now = Except.ok q ∧
          (uid ∈ q.dislikes ↔ uid ∉ p.dislikes) ∧ uid ∉ q.likes) ∧
    (∀ (p : RPost) (uid : Nat) (now : Int),
        ∃ q, ssrLike (some p) uid now = Except.ok q) := by
  refine ⟨?_, ?_, ?_, ?_, ?_, ?_⟩
  · intro uid now
    exact ⟨rfl, rfl, rfl, rfl⟩
  · intro p uid now h
    exact ⟨rt2Like_expired h, rt2Dislike_expired h⟩
  · intro p uid now hl he ha
    exact rt2Like_self hl he ha
  · intro p uid now hl he ha
    obtain ⟨q, h1, _, _, _, h2, h3⟩ := rt2Like_ok hl he ha
    exact ⟨q, h1, h2, h3⟩
  · intro p uid now hl he
    obtain ⟨q, h1, _, _, _, h2, h3⟩ := rt2Dislike_ok hl he
    exact ⟨q, h1, h2, h3⟩
  · intro p uid now
    obtain ⟨q, h1, _⟩ := ssrLike_ok p uid now
    exact ⟨q, h1⟩

/-- Witness for C2: the author of the live sample post gets
SelfInteractionForbidden from the part_002 like route. -/
theorem c2_witness :
    rt2Like (some samplePost) 1 50 = Except.error PostError.selfForbidden :=
  c2_like_dislike_preconditions.2.2.1 samplePost 1 50 rfl (by decide) rfl

/-- Counterexample to C2 as stated: user 1 is the author of the live
sample post, yet the part_002 dislike succeeds instead of returning
SelfInteractionForbidden; and a like against a post with Expired status
succeeds in the mounted route instead of returning PostExpired. -/
theorem c2_counterexample :
    (∃ q, rt2Dislike (some samplePost) 1 50 = Except.ok q ∧ 1 ∈ q.dislikes) ∧
    (∃ q, ssrLike (some sampleExpired) 2 1000 = Except.ok q ∧ 2 ∈ q.likes) :=
  ⟨⟨_, rfl, by decide⟩, ⟨_, rfl, by decide⟩⟩

/-- C3: after any sequence of like and dislike operations the two
reaction membership arrays of a post stay disjoint, in the mounted
src/src/routes/posts.js toggle variant (fields likes and dislikes) as
well as in the part_001 controller variant (fields likedBy and
dislikedBy). -/
theorem c3_disjoint_reactions :
    (∀ (p : RPost) (ops : List ROp),
        p.likes.Disjoint p.dislikes →
        (applyROps p ops).likes.Disjoint (applyROps p ops).dislikes) ∧
    (∀ (p : CPost) (ops : List COp),
        p.likedBy.Disjoint p.dislikedBy →
        (applyCOps p ops).likedBy.Disjoint (applyCOps p ops).dislikedBy) :=
  ⟨applyROps_disjoint, applyCOps_disjoint⟩

/-- Witness for C3 at a concrete post and operation sequence. -/
theorem c3_witness :
    (applyROps samplePost [ROp.like 2 50, ROp.dislike 2 60]).likes.Disjoint
      (applyROps samplePost [ROp.like 2 50, ROp.dislike 2 60]).dislikes :=
  c3_disjoint_reactions.1 samplePost [ROp.like 2 50, ROp.dislike 2 60]
    (by intro a ha hb; simp [samplePost] at ha)

/-- C9: in the counter-tracked part_001 variant the numeric likes and
dislikes counters stay non-negative under any sequence of like and
dislike operations, because the withdraw-opposite decrement is floored at
zero and every other change is an increment or a no-op. -/
theorem c9_counters_nonneg (p : CPost) (ops : List COp)
    (hl : 0 ≤ p.likes) (hd : 0 ≤ p.dislikes) :
    0 ≤ (applyCOps p ops).likes ∧ 0 ≤ (applyCOps p ops).dislikes :=
  applyCOps_nonneg p ops hl hd

/-- Witness for C9 at a concrete post and operation sequence. -/
theorem c9_witness :
    0 ≤ (applyCOps cSample [COp.like 2 50, COp.dislike 2 60]).likes ∧
    0 ≤ (applyCOps cSample [COp.like 2 50, COp.dislike 2 60]).dislikes :=
  c9_counters_nonneg cSample [COp.like 2 50, COp.dislike 2 60]
    (by decide) (by decide)


/-- C4 (amended): over a store held in creation order, the mounted
most-active route considers exactly the posts of the topic whose cached
status is Live, scores each as the sum of the likes and dislikes array
lengths, returns a maximum-score post together with that score, and on
ties keeps the earliest-created post; it reports no posts only when the
topic has no cached-Live posts. The part_001 variant instead ranks every
post of the topic, expired ones included, by the numeric counters (see
the counterexample). -/
theorem c4_most_active (store : List RPost) (topic : String)
    (hsort : store.Pairwise (fun a b => a.createdAt ≤ b.createdAt)) :
    (liveTopicR store topic = [] →
      ssrActive store topic = Except.error PostError.noPosts) ∧
    (liveTopicR store topic ≠ [] →
      ∃ m, ssrActive store topic = Except.ok (m, scoreR m) ∧
        m ∈ liveTopicR store topic ∧
        (∀ q ∈ liveTopicR store topic, scoreR q ≤ scoreR m) ∧
        (∀ q ∈ liveTopicR store topic, scoreR q = scoreR m →
          m.createdAt ≤ q.createdAt)) := by
  constructor
  · intro h
    simp [ssrActive, h]
  · intro h
    rcases hlt : liveTopicR store topic with _ | ⟨first, rest⟩
    · exact absurd hlt h
    · have h2 : (liveTopicR store topic).Pairwise
          (fun a b => a.createdAt ≤ b.createdAt) := hsort.filter _
      rw [hlt] at h2
      obtain ⟨hmem, hmax, htie⟩ :=
        bestBy_spec scoreR (fun p => p.createdAt) rest first h2
      refine ⟨bestBy scoreR first rest, ?_, ?_, ?_, ?_⟩
      · simp [ssrActive, hlt, bestBy]
      · exact hmem
      · exact hmax
      · exact htie

/-- Witness for C4 at a singleton store. -/
theorem c4_witness :
    ∃ m, ssrActive [samplePost] "Tech" = Except.ok (m, scoreR m) ∧
      m ∈ liveTopicR [samplePost] "Tech" ∧
      (∀ q ∈ liveTopicR [samplePost] "Tech", scoreR q ≤ scoreR m) ∧
      (∀ q ∈ liveTopicR [samplePost] "Tech", scoreR q = scoreR m →
        m.createdAt ≤ q.createdAt) :=
  (c4_most_active [samplePost] "Tech" (by simp)).2 (by decide)

/-- Counterexample to C4 as stated: at now = 1000 the only Tech post is
past expiry, so the topic has zero Live posts and the claim demands
NoPostsInTopic; the part_001 query instead flips its status to Expired
and still returns it as the most active post. -/
theorem c4_counterexample :
    ∃ pr, ctrlMostActive [cSample] "Tech" 1000 = Except.ok pr ∧
      pr.1.status = Status.Expired :=
  ⟨_, rfl, rfl⟩

/-- C5 (amended): in the toggle variants (the part_002 route, under its
preconditions, and the mounted src/src/routes/posts.js route,
unconditionally) liking twice in a row succeeds both times and restores
the membership of the acting user in the likes array to its original
state — so the user ends not-liked exactly when the user started
not-liked; in the part_001 controller the second like is instead
rejected as already-liked (see the counterexample). -/
theorem c5_like_twice :
    (∀ (p : RPost) (uid : Nat) (now : Int),
        p.status = Status.Live → ¬ now > p.expirationTime → p.author ≠ uid →
        ∃ q r, rt2Like (some p) uid now = Except.ok q ∧
          rt2Like (some q) uid now = Except.ok r ∧
          (uid ∈ r.likes ↔ uid ∈ p.likes)) ∧
    (∀ (p : RPost) (uid : Nat) (now : Int),
        ∃ q r, ssrLike (some p) uid now = Except.ok q ∧
          ssrLike (some q) uid now = Except.ok r ∧
          (uid ∈ r.likes ↔ uid ∈ p.likes)) := by
  constructor
  · intro p uid now hl he ha
    obtain ⟨q, hq, hqs, hqe, hqa, hqm, _⟩ := rt2Like_ok hl he ha
    have he2 : ¬ now > q.expirationTime := by rw [hqe]; exact he
    have ha2 : q.author ≠ uid := by rw [hqa]; exact ha
    obtain ⟨r, hr, _, _, _, hrm, _⟩ := rt2Like_ok hqs he2 ha2
    refine ⟨q, r, hq, hr, ?_⟩
    rw [hrm, hqm]
    exact not_not
  · intro p uid now
    obtain ⟨q, hq, hqm, _⟩ := ssrLike_ok p uid now
    obtain ⟨r, hr, hrm, _⟩ := ssrLike_ok q uid now
    refine ⟨q, r, hq, hr, ?_⟩
    rw [hrm, hqm]
    exact not_not

/-- Witness for C5: double like by user 2 on the live sample post. -/
theorem c5_witness :
    ∃ q r, rt2Like (some samplePost) 2 50 = Except.ok q ∧
      rt2Like (some q) 2 50 = Except.ok r ∧
      (2 ∈ r.likes ↔ 2 ∈ samplePost.likes) :=
  c5_like_twice.1 samplePost 2 50 rfl (by decide) (by decide)

/-- Counterexample to C5 as stated: in the part_001 controller the first
like by user 2 succeeds and records the user, and the second like is
rejected with an already-liked error rather than un-liking; moreover in
the toggle variant a user who was already a liker ends as a liker again
after liking twice. -/
theorem c5_counterexample :
    (∃ q, ctrlLike (some cSample) 2 50 = Except.ok q ∧
        2 ∈ q.likedBy ∧
        ctrlLike (some q) 2 50 = Except.error PostError.alreadyLiked) ∧
    (∃ q r, rt2Like (some likedSample) 2 50 = Except.ok q ∧
        rt2Like (some q) 2 50 = Except.ok r ∧ 2 ∈ r.likes) :=
  ⟨⟨_, rfl, by decide, rfl⟩, ⟨_, _, rfl, rfl, by decide⟩⟩

/-- C6 (amended): browse-by-topic in the mounted src/src/routes/posts.js
variant returns, newest first by createdAt, exactly the posts of the
topic whose CACHED status field is Live; it never consults the expiry
timestamp, so a post past its expiresAt whose status is still Live is
returned (and the result does not depend on the query time). The
part_001 variant flips stale statuses first but then returns every post
of the topic, Expired ones included (see the counterexample). -/
theorem c6_browse_topic (store : List RPost) (topic : String)
    (htopic : TOPICS.contains topic = true) :
    ∃ l, ssrGetTopic store topic = Except.ok l ∧
      l.Perm (store.filter
        (fun p => decide (p.topic = topic ∧ p.status = Status.Live))) ∧
      l.Pairwise (fun a b => b.createdAt ≤ a.createdAt) ∧
      (∀ p, p ∈ l ↔ p ∈ store ∧ p.topic = topic ∧ p.status = Status.Live) := by
  refine ⟨sortDesc (fun p => p.createdAt)
      (store.filter (fun p => decide (p.topic = topic ∧ p.status = Status.Live))),
      ?_, ?_, ?_, ?_⟩
  · simp only [ssrGetTopic, if_pos htopic]
  · exact sortDesc_perm _ _
  · exact sortDesc_pairwise _ _
  · intro p
    rw [(sortDesc_perm (fun q : RPost => q.createdAt)
      (store.filter
        (fun q => decide (q.topic = topic ∧ q.status = Status.Live)))).mem_iff]
    simp [List.mem_filter]

/-- Witness for C6 at a singleton store. -/
theorem c6_witness :
    ∃ l, ssrGetTopic [samplePost] "Tech" = Except.ok l ∧
      l.Perm ([samplePost].filter
        (fun p => decide (p.topic = "Tech" ∧ p.status = Status.Live))) ∧
      l.Pairwise (fun a b => b.createdAt ≤ a.createdAt) ∧
      (∀ p, p ∈ l ↔ p ∈ [samplePost] ∧ p.topic = "Tech" ∧
        p.status = Status.Live) :=
  c6_browse_topic [samplePost] "Tech" rfl

/-- Counterexample to C6 as stated: the sample post expires at 100, so at
query time 1000 it is past expiry with stale Live status, yet browse
returns it (the mounted query ignores the clock entirely); and the
part_001 variant returns a post whose status is Expired. -/
theorem c6_counterexample :
    ssrGetTopic [samplePost] "Tech" = Except.ok [samplePost] ∧
    isExpiredSpec samplePost.expirationTime 1000 = true ∧
    (∃ l, ctrlGetPostsByTopic [cSample] "Tech" 1000 = Except.ok l ∧
      ∃ p, p ∈ l ∧ p.status = Status.Expired) :=
  ⟨rfl, rfl, ⟨_, rfl, ⟨lazyFlipC 1000 cSample, by decide, by decide⟩⟩⟩


/-- C7 (amended): the part_002 create route never rejects a non-positive
duration: a positive duration d gives expiresAt = createdAt + d minutes,
an absent duration gives the 5-minute default, a supplied zero is falsy
in JS and silently falls back to the same default, and a negative
duration is accepted as-is, producing an already-past expiresAt (the
pre-save hook then stores the post as Expired immediately). -/
theorem c7_create_expiry (title content topic : String) (author : Nat)
    (uname : String) (now : Int)
    (hv : ¬ (jsTrim title = "" ∨ (jsTrim title).length > 200 ∨
             jsTrim content = "" ∨ (jsTrim content).length > 2000 ∨
             ¬ TOPICS.contains topic)) :
    (∀ d : Int, 0 < d →
        ∃ p, rt2Create title content topic author uname (some d) now = Except.ok p ∧
          p.createdAt = now ∧ p.expirationTime = now + d * 60000 ∧
          p.status = Status.Live) ∧
    (∃ p, rt2Create title content topic author uname none now = Except.ok p ∧
        p.createdAt = now ∧ p.expirationTime = now + 5 * 60000 ∧
        p.status = Status.Live) ∧
    (∃ p, rt2Create title content topic author uname (some 0) now = Except.ok p ∧
        p.expirationTime = now + 5 * 60000 ∧ p.status = Status.Live) ∧
    (∀ d : Int, d < 0 →
        ∃ p, rt2Create title content topic author uname (some d) now = Except.ok p ∧
          p.expirationTime = now + d * 60000 ∧ p.status = Status.Expired) := by
  refine ⟨?_, ?_, ?_, ?_⟩
  · intro d hd
    have hdz : ¬ d = 0 := by omega
    simp only [rt2Create, if_neg hv, if_neg hdz]
    have hns : ¬ now > now + d * 60000 := by omega
    refine ⟨_, rfl, ?_, ?_, ?_⟩
    · rw [preSaveR_createdAt]
    · rw [preSaveR_expirationTime]
    · rw [preSaveR_status_of_le hns]
  · simp only [rt2Create, if_neg hv, DEFAULT_EXPIRY]
    have hns : ¬ now > now + 5 * 60000 := by omega
    refine ⟨_, rfl, ?_, ?_, ?_⟩
    · rw [preSaveR_createdAt]
    · rw [preSaveR_expirationTime]
    · rw [preSaveR_status_of_le hns]
  · simp only [rt2Create, if_neg hv, if_pos (rfl : (0 : Int) = 0), DEFAULT_EXPIRY]
    have hns : ¬ now > now + 5 * 60000 := by omega
    refine ⟨_, rfl, ?_, ?_⟩
    · rw [preSaveR_expirationTime]; simp
    · rw [preSaveR_status_of_le hns]
  · intro d hd
    have hdz : ¬ d = 0 := by omega
    simp only [rt2Create, if_neg hv, if_neg hdz]
    have hps : now > now + d * 60000 := by omega
    refine ⟨_, rfl, ?_, ?_⟩
    · rw [preSaveR_expirationTime]
    · rw [preSaveR_status_of_past hps]

/-- Witness for C7 with a valid payload and a 7-minute duration. -/
theorem c7_witness :
    ∃ p, rt2Create "t" "c" "Tech" 1 "u" (some 7) 0 = Except.ok p ∧
      p.createdAt = 0 ∧ p.expirationTime = 0 + 7 * 60000 ∧
      p.status = Status.Live :=
  (c7_create_expiry "t" "c" "Tech" 1 "u" 0 (by decide)).1 7 (by decide)

/-- Counterexample to C7 as stated: a duration of -3 minutes is not
rejected with ValidationError but accepted, yielding an expiresAt before
the creation time; and a supplied duration of 0 is not rejected either,
silently becoming the 5-minute default. -/
theorem c7_counterexample :
    (∃ p, rt2Create "t" "c" "Tech" 1 "u" (some (-3)) 1000 = Except.ok p ∧
        p.expirationTime = -179000 ∧ p.status = Status.Expired) ∧
    (∃ p, rt2Create "t" "c" "Tech" 1 "u" (some 0) 1000 = Except.ok p ∧
        p.expirationTime = 301000) :=
  ⟨⟨_, rfl, rfl, rfl⟩, ⟨_, rfl, rfl⟩⟩

/-- C8 (amended): the part_002 expired-history query first flips every
stale Live post whose expirationTime is strictly before now, then
returns, ordered by expirationTime descending, exactly the topic posts
whose status after the flip is Expired — equivalently the posts already
marked Expired or strictly past their expiry; a post exactly at its
expiry instant with Live status is not included. -/
theorem c8_expired_history (store : List RPost) (topic : String) (now : Int)
    (htopic : TOPICS.contains topic = true) :
    ∃ l, rt2Expired store topic now = Except.ok l ∧
      l.Pairwise (fun a b => b.expirationTime ≤ a.expirationTime) ∧
      l.Perm ((updateExpiredR now store).filter
        (fun p => decide (p.topic = topic ∧ p.status = Status.Expired))) ∧
      (∀ q, q ∈ l ↔ q ∈ updateExpiredR now store ∧ q.topic = topic ∧
        q.status = Status.Expired) ∧
      (∀ p : RPost, p.status = Status.Live →
        ((lazyFlipR now p).status = Status.Expired ↔ now > p.expirationTime)) := by
  refine ⟨sortDesc (fun p => p.expirationTime)
      ((updateExpiredR now store).filter
        (fun p => decide (p.topic = topic ∧ p.status = Status.Expired))),
      ?_, ?_, ?_, ?_, ?_⟩
  · simp only [rt2Expired, if_pos htopic]
  · exact sortDesc_pairwise _ _
  · exact sortDesc_perm _ _
  · intro q
    rw [(sortDesc_perm (fun r : RPost => r.expirationTime)
      ((updateExpiredR now store).filter
        (fun r => decide (r.topic = topic ∧ r.status = Status.Expired)))).mem_iff]
    simp [List.mem_filter]
  · intro p hl
    unfold lazyFlipR
    constructor
    · intro h
      by_contra hn
      rw [if_neg] at h
      · rw [hl] at h
        exact absurd h (by decide)
      · rintro ⟨h1, _⟩
        exact hn h1
    · intro h
      rw [if_pos ⟨h, hl⟩]

/-- Witness for C8 over a singleton store at a time past expiry. -/
theorem c8_witness :
    ∃ l, rt2Expired [samplePost] "Tech" 1000 = Except.ok l ∧
      l.Pairwise (fun a b => b.expirationTime ≤ a.expirationTime) ∧
      l.Perm ((updateExpiredR 1000 [samplePost]).filter
        (fun p => decide (p.topic = "Tech" ∧ p.status = Status.Expired))) ∧
      (∀ q, q ∈ l ↔ q ∈ updateExpiredR 1000 [samplePost] ∧ q.topic = "Tech" ∧
        q.status = Status.Expired) ∧
      (∀ p : RPost, p.status = Status.Live →
        ((lazyFlipR 1000 p).status = Status.Expired ↔ 1000 > p.expirationTime)) :=
  c8_expired_history [samplePost] "Tech" 1000 rfl

/-- Counterexample to C8 as stated: the sample post expires at 100, so at
now = 100 the specification definition isExpired(post, now) holds and the
claim requires the post in the history, yet the query returns the empty
list because the flip condition is strict. -/
theorem c8_counterexample :
    rt2Expired [samplePost] "Tech" 100 = Except.ok [] ∧
    isExpiredSpec samplePost.expirationTime 100 = true :=
  ⟨rfl, rfl⟩

end Piazza
